import Mathlib

/-!
Shallow embedding of the client-side session lifecycle controller of
`src/frontend/src/App.tsx` (Looney Tunes voice demo).

The React component is event-driven: user intents (connect, disconnect,
toggleMute, selectCharacter) and transport callbacks (joined-meeting,
left-meeting, error, track-started, app-message) each run as one
non-preemptive turn over the component state.  We model each turn as a
step of a state machine.  The async body of `connect` suspends at the
provisioning fetch and at `join`; its continuations are modelled as the
separate events `provisionOk` / `provisionFail` / `joinFail`, gated by
in-flight flags, exactly as the un-cancellable JS promises behave.

Ghost fields (`provisionCalls`, `sessionsCreated`, `graveyard`) record
externally visible effects (provisioning requests issued, sessions
created, audio sinks that were replaced) so that claims about "no
duplicate call" and "old sink stopped and detached" are statable.
-/

namespace App

inductive ConnectionState
  | idle | connecting | connected | error
deriving DecidableEq, Repr

inductive AgentState
  | listening | thinking | speaking | idle
deriving DecidableEq, Repr

/-- The live transport handle (`DailyCall`).  The only transport-side
state the component reads or writes is the local-audio-enabled flag
(`localAudio()` / `setLocalAudio`).  Created with `audioSource: true`. -/
structure CallHandle where
  localAudioEnabled : Bool
deriving DecidableEq, Repr

/-- The playback resource (`HTMLAudioElement`).  `srcObject` holds the
id of the bound media track, `none` once detached. -/
structure AudioSink where
  srcObject : Option Nat
  autoplay : Bool
  paused : Bool
deriving DecidableEq, Repr

structure TrackInfo where
  kind : String
  id : Nat
deriving DecidableEq, Repr

structure Participant where
  isLocal : Bool
deriving DecidableEq, Repr

/-- Payload of a `track-started` transport event.  `playOk` is the
environment's choice of whether `audio.play()` succeeds (a failure is
caught and logged by the handler). -/
structure TrackEvent where
  track : Option TrackInfo
  participant : Option Participant
  playOk : Bool
deriving DecidableEq, Repr

/-- The fields the `app-message` handler reads off `event.data` after the
cast `as { type: string; status?: string; text?: string; role?: string }`.
Absent fields are `none`. -/
structure AppData where
  type : Option String
  status : Option String
  text : Option String
  role : Option String
deriving DecidableEq, Repr

/-- One decoded application-message effect: the handler either sets the
agent state, or replaces the transcript (text and role), or does nothing. -/
inductive DecEvent
  | setAgent (a : AgentState)
  | setTranscript (text : String) (role : String)
deriving DecidableEq, Repr

/-- The `switch (data.status)` of the app-message handler:
`listening`/`stt` map to listening, `llm` to thinking, `tts` to speaking,
anything else (including a missing field) to idle. -/
def statusToAgent (status : Option String) : AgentState :=
  if status = some "listening" then .listening
  else if status = some "stt" then .listening
  else if status = some "llm" then .thinking
  else if status = some "tts" then .speaking
  else .idle

/-- JS `r || dflt` on an optional string: the default is taken when the
field is absent or the empty string (both falsy). -/
def jsOr (r : Option String) (dflt : String) : String :=
  match r with
  | some s => if s = "" then dflt else s
  | none => dflt

/-- The Agent Status Protocol Decoder, read off the `app-message` handler
(source lines 96-123): `event.data` falsy is ignored; `type = "status"`
always produces a setAgent event via `statusToAgent`; `type = "transcript"`
produces a transcript replacement only when `data.text` is truthy
(present and non-empty), with the role defaulted by `data.role || "assistant"`;
every other payload produces no event. -/
def decodeApp (data : Option AppData) : Option DecEvent :=
  match data with
  | none => none
  | some d =>
      if d.type = some "status" then
        some (.setAgent (statusToAgent d.status))
      else if d.type = some "transcript" then
        match d.text with
        | some t => if t = "" then none else some (.setTranscript t (jsOr d.role "assistant"))
        | none => none
      else none

/-- The component state: the React state variables, the two refs, the
pending-continuation flags of the async `connect`, and ghost
instrumentation. -/
structure AppState where
  connectionState : ConnectionState
  agentState : AgentState
  isMuted : Bool
  transcript : String
  transcriptRole : String
  selectedCharacter : String
  callRef : Option CallHandle
  audioRef : Option AudioSink
  /-- the `await fetch` of a running `connect` has not resolved yet -/
  fetchInFlight : Bool
  /-- the `await callObject.join` of a running `connect` has not resolved yet -/
  joinInFlight : Bool
  /-- ghost: characters sent to `/api/connect`, in order -/
  provisionCalls : List String
  /-- ghost: number of `Daily.createCallObject` calls -/
  sessionsCreated : Nat
  /-- ghost: every sink that was stopped and detached, in order -/
  graveyard : List AudioSink
deriving DecidableEq, Repr

/-- Initial component state (the `useState` defaults). -/
def initState : AppState :=
  { connectionState := .idle
    agentState := .idle
    isMuted := false
    transcript := ""
    transcriptRole := ""
    selectedCharacter := "bugs"
    callRef := none
    audioRef := none
    fetchInFlight := false
    joinInFlight := false
    provisionCalls := []
    sessionsCreated := 0
    graveyard := [] }

/-- Applying a decoded effect to the component state: `setAgentState`,
or `setTranscript` plus `setTranscriptRole`. -/
def applyDecEvent (s : AppState) : Option DecEvent → AppState
  | none => s
  | some (.setAgent a) => { s with agentState := a }
  | some (.setTranscript t r) => { s with transcript := t, transcriptRole := r }

/-- `audio.pause()` followed by `audio.srcObject = null`. -/
def killSink (k : AudioSink) : AudioSink :=
  { k with paused := true, srcObject := none }

/-- The guard of the `track-started` handler:
`event.track?.kind === "audio" && event.participant && !event.participant.local`. -/
def qualifying (e : TrackEvent) : Bool :=
  match e.track, e.participant with
  | some t, some p => t.kind = "audio" && !p.isLocal
  | _, _ => false

/-- The events of one turn: user intents, transport callbacks, and the
resumptions of the suspended `connect` body. -/
inductive Ev
  | connectIntent
  | provisionOk
  | provisionFail
  | joined
  | joinFail
  | leftMeeting
  | transportError
  | appMessage (d : Option AppData)
  | trackStarted (e : TrackEvent)
  | disconnectIntent
  | toggleMuteIntent
  | selectCharacter (c : String)
deriving DecidableEq, Repr

/-- One turn of the event loop.  Transport callbacks fire only while a
call object exists (their handlers are registered on it at creation and
die with it); `provisionOk`/`provisionFail`/`joinFail` fire only while
the corresponding await is pending.  A disconnect does NOT clear the
in-flight flags: the JS promises of a started `connect` cannot be
cancelled and their continuations still run. -/
def step (s : AppState) : Ev → AppState
  | .connectIntent =>
      if s.connectionState ≠ .idle ∧ s.connectionState ≠ .error then s
      else
        { s with connectionState := .connecting
                 fetchInFlight := true
                 provisionCalls := s.provisionCalls ++ [s.selectedCharacter] }
  | .provisionOk =>
      if s.fetchInFlight then
        { s with fetchInFlight := false
                 callRef := some { localAudioEnabled := true }
                 sessionsCreated := s.sessionsCreated + 1
                 joinInFlight := true }
      else s
  | .provisionFail =>
      if s.fetchInFlight then
        { s with fetchInFlight := false, connectionState := .error }
      else s
  | .joined =>
      if s.callRef.isSome then
        { s with connectionState := .connected, agentState := .idle, joinInFlight := false }
      else s
  | .joinFail =>
      if s.joinInFlight then
        { s with joinInFlight := false, connectionState := .error }
      else s
  | .leftMeeting =>
      if s.callRef.isSome then
        { s with connectionState := .idle
                 agentState := .idle
                 transcript := ""
                 transcriptRole := "" }
      else s
  | .transportError =>
      if s.callRef.isSome then { s with connectionState := .error } else s
  | .appMessage d =>
      if s.callRef.isSome then applyDecEvent s (decodeApp d) else s
  | .trackStarted e =>
      if s.callRef.isSome && qualifying e then
        { s with audioRef := some
                   { srcObject := some ((e.track.getD { kind := "", id := 0 }).id)
                     autoplay := true
                     paused := !e.playOk }
                 graveyard :=
                   match s.audioRef with
                   | some k => s.graveyard ++ [killSink k]
                   | none => s.graveyard }
      else s
  | .disconnectIntent =>
      let s1 :=
        match s.audioRef with
        | some k => { s with audioRef := none, graveyard := s.graveyard ++ [killSink k] }
        | none => s
      { s1 with callRef := none
                connectionState := .idle
                agentState := .idle
                transcript := ""
                transcriptRole := "" }
  | .toggleMuteIntent =>
      match s.callRef with
      | some c =>
          let currentMuteState := c.localAudioEnabled == false
          { s with callRef := some { localAudioEnabled := currentMuteState }
                   isMuted := !currentMuteState }
      | none => s
  | .selectCharacter c =>
      if s.connectionState = .connecting ∨ s.connectionState = .connected then s
      else { s with selectedCharacter := c }

/-- Execution of an event trace from the initial component state. -/
def run (tr : List Ev) : AppState :=
  tr.foldl step initState

/-- Modelled from the spec: the fixed status lookup table of section 4.3,
"listening|stt maps to listening, llm to thinking, tts to speaking". -/
def statusTable : List (String × AgentState) :=
  [("listening", .listening), ("stt", .listening), ("llm", .thinking), ("tts", .speaking)]

/-- Modelled from the spec: "maps a status sub-field to an AgentState via
a fixed lookup; unrecognized or missing sub-field maps to idle". -/
def specStatusMap (status : Option String) : AgentState :=
  match status with
  | some s => (statusTable.lookup s).getD .idle
  | none => .idle

/-- Modelled from the spec, literally as claim C6 words the reference
decoder: a status message maps through the fixed lookup; a transcript
message with a non-empty text replaces the transcript with that text and
its role, the role defaulting to "assistant" exactly when the role
sub-field is OMITTED; everything else produces no event. -/
def decodeSpecClaim (data : Option AppData) : Option DecEvent :=
  match data with
  | none => none
  | some d =>
      if d.type = some "status" then
        some (.setAgent (specStatusMap d.status))
      else if d.type = some "transcript" then
        match d.text with
        | some t => if t = "" then none else some (.setTranscript t (d.role.getD "assistant"))
        | none => none
      else none

/-- Modelled from the spec as amended: identical to the claim reference
except that the role defaults to "assistant" when the role sub-field is
omitted OR empty. -/
def decodeSpecAmended (data : Option AppData) : Option DecEvent :=
  match data with
  | none => none
  | some d =>
      if d.type = some "status" then
        some (.setAgent (specStatusMap d.status))
      else if d.type = some "transcript" then
        match d.text with
        | some t =>
            if t = "" then none
            else
              some (.setTranscript t
                (match d.role with
                 | some r => if r = "" then "assistant" else r
                 | none => "assistant"))
        | none => none
      else none

/-- Every sink in the graveyard has been stopped and detached. -/
def GraveDead (s : AppState) : Prop :=
  ∀ k ∈ s.graveyard, k.srcObject = none ∧ k.paused = true

/-- Number of sinks still attached to a track, over the current sink and
every sink ever replaced. -/
def aliveSinks (s : AppState) : Nat :=
  (s.graveyard.filter (fun k => k.srcObject.isSome)).length +
    (match s.audioRef with
     | some k => if k.srcObject.isSome then 1 else 0
     | none => 0)

/-- A `status: tts` application message. -/
def msgStatusTts : Option AppData :=
  some { type := some "status", status := some "tts", text := none, role := none }

/-- A user transcript message carrying the text `hello`. -/
def msgTranscriptHello : Option AppData :=
  some { type := some "transcript", status := none, text := some "hello", role := some "user" }

/-- A qualifying remote-audio track-started event for track 5. -/
def audioTrack5 : TrackEvent :=
  { track := some { kind := "audio", id := 5 }, participant := some { isLocal := false }, playOk := true }

/-!
The step function above deliberately simplifies two aspects of the
source: it gates transport callbacks on the current `callRef` and merges
concurrent provisioning fetches into one boolean.  In App.tsx, however,
each resolved fetch runs `Daily.createCallObject` and overwrites
`callRef.current`, and the handlers registered on a call object live
until THAT object is destroyed - so a replaced, never-destroyed call
object is a zombie whose handlers can still fire after `callRef` was
overwritten or nulled.  The object-identity model below refines the step
function accordingly: every created call object gets an identity and its
own destroyed flag, in-flight fetches and joins are counted, and every
transport callback names the (live) object whose handler runs.  Claims
sensitive to zombie objects are settled against this model.
-/

/-- One call object ever created by `Daily.createCallObject`: its
creation index, whether `destroy()` has run on it, and its transport
local-audio flag (initially enabled, from `audioSource: true`). -/
structure CallObj where
  id : Nat
  destroyed : Bool
  localAudioEnabled : Bool
deriving DecidableEq, Repr

/-- Component state of the object-identity model.  `callObjects` lists
every call object ever created, in creation order; `callRef` holds the
id of the currently referenced one.  `fetchesInFlight` and
`joinsInFlight` count the pending awaits of started `connect` bodies
(promises are not cancellable, so a disconnect does not decrease them). -/
structure MState where
  connectionState : ConnectionState
  agentState : AgentState
  isMuted : Bool
  transcript : String
  transcriptRole : String
  selectedCharacter : String
  callRef : Option Nat
  audioRef : Option AudioSink
  callObjects : List CallObj
  fetchesInFlight : Nat
  joinsInFlight : Nat
  graveyard : List AudioSink
deriving DecidableEq, Repr

/-- Initial state of the object-identity model. -/
def mInitState : MState :=
  { connectionState := .idle
    agentState := .idle
    isMuted := false
    transcript := ""
    transcriptRole := ""
    selectedCharacter := "bugs"
    callRef := none
    audioRef := none
    callObjects := []
    fetchesInFlight := 0
    joinsInFlight := 0
    graveyard := [] }

/-- Some call object with this id has been created and not destroyed:
its handlers are still registered. -/
def isLiveObj (s : MState) (oid : Nat) : Bool :=
  s.callObjects.any (fun o => o.id == oid && !o.destroyed)

/-- At least one created call object has not been destroyed. -/
def anyLive (objs : List CallObj) : Bool :=
  objs.any (fun o => !o.destroyed)

/-- Applying a decoded application-message effect in the object-identity
model (same handler bodies as `applyDecEvent`). -/
def applyDecEventM (s : MState) : Option DecEvent → MState
  | none => s
  | some (.setAgent a) => { s with agentState := a }
  | some (.setTranscript t r) => { s with transcript := t, transcriptRole := r }

/-- Events of the object-identity model.  Transport callbacks carry the
id of the call object whose handler fires; they are possible exactly
while that object is live (created, not yet destroyed), which in
particular allows a zombie object, replaced by a later `provisionOk`
without ever being destroyed, to keep firing. -/
inductive MEv
  | connectIntent
  | provisionOk
  | provisionFail
  | joinOk
  | joinFail
  | joined (oid : Nat)
  | leftMeeting (oid : Nat)
  | transportError (oid : Nat)
  | appMessage (oid : Nat) (d : Option AppData)
  | trackStarted (oid : Nat) (e : TrackEvent)
  | disconnectIntent
  | toggleMuteIntent
  | selectCharacter (c : String)
deriving DecidableEq, Repr

/-- One turn of the object-identity model.  Identical handler bodies to
`step`, but `provisionOk` appends a fresh call object (overwriting the
reference, never destroying the previous object), and each callback is
gated on the liveness of its own object rather than on `callRef`. -/
def stepM (s : MState) : MEv → MState
  | .connectIntent =>
      if s.connectionState ≠ .idle ∧ s.connectionState ≠ .error then s
      else
        { s with connectionState := .connecting
                 fetchesInFlight := s.fetchesInFlight + 1 }
  | .provisionOk =>
      if 0 < s.fetchesInFlight then
        { s with fetchesInFlight := s.fetchesInFlight - 1
                 callObjects := s.callObjects ++
                   [{ id := s.callObjects.length, destroyed := false, localAudioEnabled := true }]
                 callRef := some s.callObjects.length
                 joinsInFlight := s.joinsInFlight + 1 }
      else s
  | .provisionFail =>
      if 0 < s.fetchesInFlight then
        { s with fetchesInFlight := s.fetchesInFlight - 1, connectionState := .error }
      else s
  | .joinOk =>
      if 0 < s.joinsInFlight then
        { s with joinsInFlight := s.joinsInFlight - 1 }
      else s
  | .joinFail =>
      if 0 < s.joinsInFlight then
        { s with joinsInFlight := s.joinsInFlight - 1, connectionState := .error }
      else s
  | .joined oid =>
      if isLiveObj s oid then
        { s with connectionState := .connected, agentState := .idle }
      else s
  | .leftMeeting oid =>
      if isLiveObj s oid then
        { s with connectionState := .idle
                 agentState := .idle
                 transcript := ""
                 transcriptRole := "" }
      else s
  | .transportError oid =>
      if isLiveObj s oid then { s with connectionState := .error } else s
  | .appMessage oid d =>
      if isLiveObj s oid then applyDecEventM s (decodeApp d) else s
  | .trackStarted oid e =>
      if isLiveObj s oid && qualifying e then
        { s with audioRef := some
                   { srcObject := some ((e.track.getD { kind := "", id := 0 }).id)
                     autoplay := true
                     paused := !e.playOk }
                 graveyard :=
                   match s.audioRef with
                   | some k => s.graveyard ++ [killSink k]
                   | none => s.graveyard }
      else s
  | .disconnectIntent =>
      let s1 : MState :=
        match s.audioRef with
        | some k => { s with audioRef := none, graveyard := s.graveyard ++ [killSink k] }
        | none => s
      let s2 : MState :=
        match s.callRef with
        | some oid =>
            { s1 with callObjects := s1.callObjects.map
                        (fun o => if o.id = oid then { o with destroyed := true } else o)
                      callRef := none }
        | none => s1
      { s2 with connectionState := .idle
                agentState := .idle
                transcript := ""
                transcriptRole := "" }
  | .toggleMuteIntent =>
      match s.callRef with
      | some oid =>
          match s.callObjects.find? (fun o => o.id == oid) with
          | some o =>
              let currentMuteState := o.localAudioEnabled == false
              { s with callObjects := s.callObjects.map
                         (fun p => if p.id = oid then
                           { p with localAudioEnabled := currentMuteState } else p)
                       isMuted := !currentMuteState }
          | none => s
      | none => s
  | .selectCharacter c =>
      if s.connectionState = .connecting ∨ s.connectionState = .connected then s
      else { s with selectedCharacter := c }

/-- Execution of an event trace of the object-identity model from its
initial state. -/
def runM (tr : List MEv) : MState :=
  tr.foldl stepM mInitState

/-- Invariant of the object-identity model: a non-idle agent state
implies that at least one created call object has not been destroyed. -/
def MInv (s : MState) : Prop :=
  s.agentState ≠ .idle → anyLive s.callObjects = true

/-- The status lookup table of the spec agrees with the switch statement
of the app-message handler. -/
theorem specStatusMap_eq_statusToAgent (o : Option String) :
    specStatusMap o = statusToAgent o := by
  cases o with
  | none => rfl
  | some s =>
      by_cases h1 : s = "listening"
      · subst h1; decide
      by_cases h2 : s = "stt"
      · subst h2; decide
      by_cases h3 : s = "llm"
      · subst h3; decide
      by_cases h4 : s = "tts"
      · subst h4; decide
      have e1 : (s == "listening") = false := beq_eq_false_iff_ne.mpr h1
      have e2 : (s == "stt") = false := beq_eq_false_iff_ne.mpr h2
      have e3 : (s == "llm") = false := beq_eq_false_iff_ne.mpr h3
      have e4 : (s == "tts") = false := beq_eq_false_iff_ne.mpr h4
      simp [specStatusMap, statusTable, statusToAgent, List.lookup, e1, e2, e3, e4, h1, h2, h3, h4]

/-- Claim C6, counterexample: at the payload
`{type: "transcript", text: "hi", role: ""}` the decoder of the code
defaults the role to "assistant" (JS truthiness of `data.role`), while
the reference definition of the claim keeps the present-but-empty role,
so the two total functions differ. -/
theorem decoder_differs_from_claim_reference :
    decodeApp (some { type := some "transcript", status := none, text := some "hi", role := some "" }) ≠
      decodeSpecClaim (some { type := some "transcript", status := none, text := some "hi", role := some "" }) := by
  decide

/-- Claim C6, amended: the decoder of the code equals the reference
decoder in which the role defaults to "assistant" when the role
sub-field is omitted OR empty; on every inbound payload the two total
functions agree (and both are total, so decoding never raises). -/
theorem decoder_eq_spec_amended (d : Option AppData) :
    decodeApp d = decodeSpecAmended d := by
  cases d with
  | none => rfl
  | some a =>
      rcases a with ⟨ty, st, tx, rl⟩
      cases tx <;> cases rl <;>
        simp only [decodeApp, decodeSpecAmended, specStatusMap_eq_statusToAgent, jsOr]

/-- Claim C8: a connect intent issued while the connection state is
connecting or connected is a complete no-op: the state (including the
ghost record of provisioning calls and created sessions) is unchanged. -/
theorem connect_idempotent_when_busy (s : AppState)
    (h : s.connectionState = .connecting ∨ s.connectionState = .connected) :
    step s .connectIntent = s := by
  rcases h with h | h <;> simp [step, h]

/-- Witness for claim C8 at the state reached by one connect intent. -/
theorem connect_idempotent_when_busy_witness :
    (run [Ev.connectIntent]).connectionState = .connecting ∧
      step (run [Ev.connectIntent]) .connectIntent = run [Ev.connectIntent] :=
  ⟨by decide, connect_idempotent_when_busy (run [Ev.connectIntent]) (Or.inl (by decide))⟩

/-- Claim C9: while a session exists, toggleMute sets the transport flag
to the negation of the value read from the transport at invocation time
(whatever the locally cached isMuted was), and isMuted ends equal to the
negation of the new enabled flag. -/
theorem toggle_mute_reads_transport (s : AppState) (c : CallHandle)
    (h : s.callRef = some c) :
    ∃ c', (step s .toggleMuteIntent).callRef = some c' ∧
      c'.localAudioEnabled = !c.localAudioEnabled ∧
      (step s .toggleMuteIntent).isMuted = !c'.localAudioEnabled := by
  refine ⟨{ localAudioEnabled := c.localAudioEnabled == false }, ?_, ?_, ?_⟩
  · simp only [step, h]
  · cases c.localAudioEnabled <;> rfl
  · simp only [step, h]

/-- Witness for claim C9 at a freshly provisioned session (local audio
enabled) with a desynchronized isMuted cache not involved. -/
theorem toggle_mute_reads_transport_witness :
    (run [Ev.connectIntent, Ev.provisionOk]).callRef = some { localAudioEnabled := true } ∧
      ∃ c', (step (run [Ev.connectIntent, Ev.provisionOk]) .toggleMuteIntent).callRef = some c' ∧
        c'.localAudioEnabled = !(true : Bool) ∧
        (step (run [Ev.connectIntent, Ev.provisionOk]) .toggleMuteIntent).isMuted = !c'.localAudioEnabled :=
  ⟨by decide, toggle_mute_reads_transport (run [Ev.connectIntent, Ev.provisionOk]) _ (by decide)⟩

/-- Claim C10: when no session exists (null call reference), toggleMute
is a silent no-op: the whole state, isMuted included, is unchanged. -/
theorem toggle_mute_noop_without_session (s : AppState) (h : s.callRef = none) :
    step s .toggleMuteIntent = s := by
  simp [step, h]

/-- Witness for claim C10 at the initial state. -/
theorem toggle_mute_noop_without_session_witness :
    (run []).callRef = none ∧ step (run []) .toggleMuteIntent = run [] :=
  ⟨by decide, toggle_mute_noop_without_session (run []) (by decide)⟩

/-- Claim C1, failing execution: connect is clicked, disconnect is
clicked while the provisioning fetch is still in flight (the call
reference is still null, so disconnect only resets the UI state), then
the fetch resolves and the join succeeds.  The session ends live and
connected with nothing scheduled to tear it down, although the user
asked to stop: the connect continuation never re-checks whether a
disconnect happened. -/
theorem connect_disconnect_race_leaves_session_connected :
    (run [Ev.connectIntent, Ev.disconnectIntent, Ev.provisionOk, Ev.joined]).connectionState = .connected ∧
      (run [Ev.connectIntent, Ev.disconnectIntent, Ev.provisionOk, Ev.joined]).callRef.isSome = true ∧
      (run [Ev.connectIntent, Ev.disconnectIntent, Ev.provisionOk, Ev.joined]).fetchInFlight = false ∧
      (run [Ev.connectIntent, Ev.disconnectIntent, Ev.provisionOk, Ev.joined]).joinInFlight = false := by
  decide

/-- Claim C3, counterexample: a session with a bound remote-audio sink
hits a transport error; the connection state becomes error but both the
sink and the session reference are still held afterwards - the error
handler releases nothing. -/
theorem error_retains_resources :
    (run [Ev.connectIntent, Ev.provisionOk, Ev.joined, Ev.trackStarted audioTrack5, Ev.transportError]).connectionState = .error ∧
      (run [Ev.connectIntent, Ev.provisionOk, Ev.joined, Ev.trackStarted audioTrack5, Ev.transportError]).callRef.isSome = true ∧
      (run [Ev.connectIntent, Ev.provisionOk, Ev.joined, Ev.trackStarted audioTrack5, Ev.transportError]).audioRef.isSome = true := by
  decide

/-- Claim C3, amended: a transport-reported fatal error (possible in any
state in which a call object exists) sets the connection state to error
and changes nothing else; in particular the audio sink and the session
reference are left untouched, to be released only by a later disconnect
or component teardown. -/
theorem transport_error_only_sets_error_state (s : AppState)
    (h : s.callRef.isSome = true) :
    step s .transportError = { s with connectionState := .error } := by
  simp [step, h]

/-- Witness for the amended claim C3 at a freshly provisioned session. -/
theorem transport_error_only_sets_error_state_witness :
    (run [Ev.connectIntent, Ev.provisionOk]).callRef.isSome = true ∧
      step (run [Ev.connectIntent, Ev.provisionOk]) .transportError =
        { run [Ev.connectIntent, Ev.provisionOk] with connectionState := .error } :=
  ⟨by decide, transport_error_only_sets_error_state _ (by decide)⟩

/-- Claim C5, counterexample: a previous session ended by a transport
error leaves the transcript "hello" behind; on the retry, the joined
event fires while the state is connecting, and the resulting connected
state still shows the stale transcript - the joined handler does not
clear it. -/
theorem joined_does_not_clear_transcript :
    (run [Ev.connectIntent, Ev.provisionOk, Ev.joined, Ev.appMessage msgTranscriptHello, Ev.transportError, Ev.connectIntent, Ev.provisionOk]).connectionState = .connecting ∧
      (step (run [Ev.connectIntent, Ev.provisionOk, Ev.joined, Ev.appMessage msgTranscriptHello, Ev.transportError, Ev.connectIntent, Ev.provisionOk]) .joined).connectionState = .connected ∧
      (step (run [Ev.connectIntent, Ev.provisionOk, Ev.joined, Ev.appMessage msgTranscriptHello, Ev.transportError, Ev.connectIntent, Ev.provisionOk]) .joined).transcript = "hello" := by
  decide

/-- Claim C5, amended: on the joined event while connecting (with the
call object present), the controller transitions to connected and resets
the agent state to idle; the transcript is left unchanged by this
transition (it is empty on the normal path only because the left and
disconnect paths cleared it earlier). -/
theorem joined_sets_connected_resets_agent (s : AppState)
    (_hconn : s.connectionState = .connecting) (h : s.callRef.isSome = true) :
    (step s .joined).connectionState = .connected ∧
      (step s .joined).agentState = .idle ∧
      (step s .joined).transcript = s.transcript := by
  simp [step, h]

/-- Witness for the amended claim C5 at a freshly provisioned session. -/
theorem joined_sets_connected_resets_agent_witness :
    (run [Ev.connectIntent, Ev.provisionOk]).connectionState = .connecting ∧
      (run [Ev.connectIntent, Ev.provisionOk]).callRef.isSome = true ∧
      ((step (run [Ev.connectIntent, Ev.provisionOk]) .joined).connectionState = .connected ∧
        (step (run [Ev.connectIntent, Ev.provisionOk]) .joined).agentState = .idle ∧
        (step (run [Ev.connectIntent, Ev.provisionOk]) .joined).transcript = (run [Ev.connectIntent, Ev.provisionOk]).transcript) :=
  ⟨by decide, by decide, joined_sets_connected_resets_agent _ (by decide) (by decide)⟩

/-- Claim C4, counterexample: the connection leaves connected through a
transport error with transcript "hello" still set; the transcript is not
cleared then, nor before the next connected transition - the retry
session starts connected with the stale transcript still displayed. -/
theorem transcript_survives_error_path :
    (run [Ev.connectIntent, Ev.provisionOk, Ev.joined, Ev.appMessage msgTranscriptHello, Ev.transportError]).connectionState = .error ∧
      (run [Ev.connectIntent, Ev.provisionOk, Ev.joined, Ev.appMessage msgTranscriptHello, Ev.transportError]).transcript = "hello" ∧
      (run [Ev.connectIntent, Ev.provisionOk, Ev.joined, Ev.appMessage msgTranscriptHello, Ev.transportError, Ev.connectIntent, Ev.provisionOk, Ev.joined]).connectionState = .connected ∧
      (run [Ev.connectIntent, Ev.provisionOk, Ev.joined, Ev.appMessage msgTranscriptHello, Ev.transportError, Ev.connectIntent, Ev.provisionOk, Ev.joined]).transcript = "hello" := by
  decide

/-- Claim C4, amended: the transcript (and its role) is cleared when the
connection leaves connected through the left-meeting event or through a
disconnect intent; the transport-error exit does not clear it. -/
theorem transcript_cleared_on_left_and_disconnect (s : AppState)
    (h : s.callRef.isSome = true) :
    (step s .leftMeeting).transcript = "" ∧
      (step s .leftMeeting).transcriptRole = "" ∧
      (step s .disconnectIntent).transcript = "" ∧
      (step s .disconnectIntent).transcriptRole = "" := by
  refine ⟨?_, ?_, ?_, ?_⟩
  · simp [step, h]
  · simp [step, h]
  · rfl
  · rfl

/-- Witness for the amended claim C4 at a connected session holding a
transcript. -/
theorem transcript_cleared_on_left_and_disconnect_witness :
    (run [Ev.connectIntent, Ev.provisionOk, Ev.joined, Ev.appMessage msgTranscriptHello]).callRef.isSome = true ∧
      ((step (run [Ev.connectIntent, Ev.provisionOk, Ev.joined, Ev.appMessage msgTranscriptHello]) .leftMeeting).transcript = "" ∧
        (step (run [Ev.connectIntent, Ev.provisionOk, Ev.joined, Ev.appMessage msgTranscriptHello]) .leftMeeting).transcriptRole = "" ∧
        (step (run [Ev.connectIntent, Ev.provisionOk, Ev.joined, Ev.appMessage msgTranscriptHello]) .disconnectIntent).transcript = "" ∧
        (step (run [Ev.connectIntent, Ev.provisionOk, Ev.joined, Ev.appMessage msgTranscriptHello]) .disconnectIntent).transcriptRole = "") :=
  ⟨by decide, transcript_cleared_on_left_and_disconnect _ (by decide)⟩

/-- Claim C2, counterexample: in the reachable state after
connect, provisioning, join, a `status: tts` message and then a transport
error, the agent state is speaking while the connection state is error -
the stated invariant `AgentState ≠ idle implies ConnectionState = connected`
fails, because the error handler does not reset the agent state. -/
theorem agent_state_decoupled_after_error :
    (run [Ev.connectIntent, Ev.provisionOk, Ev.joined, Ev.appMessage msgStatusTts, Ev.transportError]).agentState = .speaking ∧
      (run [Ev.connectIntent, Ev.provisionOk, Ev.joined, Ev.appMessage msgStatusTts, Ev.transportError]).connectionState = .error := by
  decide

/-- The decoded effect of an application message never changes the list
of call objects. -/
theorem applyDecEventM_callObjects (s : MState) (o : Option DecEvent) :
    (applyDecEventM s o).callObjects = s.callObjects := by
  rcases o with _ | e
  · rfl
  · cases e <;> rfl

/-- If some call object with the given id is live, then some call object
is live. -/
theorem anyLive_of_isLiveObj (s : MState) (oid : Nat) (h : isLiveObj s oid = true) :
    anyLive s.callObjects = true := by
  unfold isLiveObj at h
  rcases List.any_eq_true.mp h with ⟨o, ho, hpred⟩
  rw [Bool.and_eq_true] at hpred
  exact List.any_eq_true.mpr ⟨o, ho, hpred.2⟩

/-- Updating the local-audio flag of one call object never changes which
objects are destroyed. -/
theorem anyLive_map_flag (objs : List CallObj) (oid : Nat) (b : Bool) :
    anyLive (objs.map (fun p => if p.id = oid then { p with localAudioEnabled := b } else p)) =
      anyLive objs := by
  unfold anyLive
  induction objs with
  | nil => rfl
  | cons o rest ih =>
      simp only [List.map_cons, List.any_cons]
      rw [ih]
      congr 1
      split <;> rfl

/-- Every turn of the object-identity model preserves the invariant: a
non-idle agent state implies a not-yet-destroyed call object.  A non-idle
agent state is only ever set by the app-message handler of a live
object; objects are destroyed only by disconnect, which also resets the
agent state. -/
theorem stepM_preserves_minv (s : MState) (e : MEv) (h : MInv s) : MInv (stepM s e) := by
  cases e with
  | connectIntent =>
      simp only [stepM]; split
      · exact h
      · exact fun hne => h hne
  | provisionOk =>
      simp only [stepM]; split
      · exact fun _ => by simp [anyLive]
      · exact h
  | provisionFail =>
      simp only [stepM]; split
      · exact fun hne => h hne
      · exact h
  | joinOk =>
      simp only [stepM]; split
      · exact fun hne => h hne
      · exact h
  | joinFail =>
      simp only [stepM]; split
      · exact fun hne => h hne
      · exact h
  | joined oid =>
      simp only [stepM]; split
      · exact fun hne => absurd rfl hne
      · exact h
  | leftMeeting oid =>
      simp only [stepM]; split
      · exact fun hne => absurd rfl hne
      · exact h
  | transportError oid =>
      simp only [stepM]; split
      · exact fun hne => h hne
      · exact h
  | appMessage oid d =>
      by_cases hc : isLiveObj s oid
      · simp only [stepM, hc, if_true]
        intro _
        rw [applyDecEventM_callObjects]
        exact anyLive_of_isLiveObj s oid hc
      · simp only [stepM, hc, if_false]
        exact h
  | trackStarted oid e =>
      simp only [stepM]; split
      · exact fun hne => h hne
      · exact h
  | disconnectIntent =>
      simp only [stepM]
      exact fun hne => absurd rfl hne
  | toggleMuteIntent =>
      rcases hr : s.callRef with _ | oid
      · simp only [stepM, hr]
        exact h
      · rcases hf : s.callObjects.find? (fun o => o.id == oid) with _ | o
        · simp only [stepM, hr, hf]
          exact h
        · simp only [stepM, hr, hf]
          intro hne
          rw [anyLive_map_flag]
          exact h hne
  | selectCharacter c =>
      simp only [stepM]; split
      · exact h
      · exact fun hne => h hne

/-- The invariant holds along any fold of the object-identity step
function. -/
theorem foldl_preserves_minv (tr : List MEv) :
    ∀ s : MState, MInv s → MInv (tr.foldl stepM s) := by
  induction tr with
  | nil => exact fun s h => h
  | cons e rest ih => exact fun s h => ih (stepM s e) (stepM_preserves_minv s e h)

/-- Claim C2, amended: in every reachable state of the object-identity
model, a non-idle agent state implies that at least one call object
created by a connect has not been destroyed.  Neither
`ConnectionState = connected` nor even a non-null call reference follows:
a transport error keeps a non-idle agent in state error, and a zombie
call object (replaced by a racing reconnect, never left or destroyed,
handlers still registered) can set a non-idle agent state even after a
disconnect has nulled the reference. -/
theorem agent_active_implies_live_session_object (tr : List MEv)
    (h : (runM tr).agentState ≠ .idle) :
    anyLive (runM tr).callObjects = true :=
  foldl_preserves_minv tr mInitState (fun hne => absurd rfl hne) h

/-- Witness for the amended claim C2 at the zombie interleaving itself:
connect, disconnect while the first fetch is in flight, reconnect, both
fetches resolve (the first call object is silently replaced, never
destroyed), disconnect destroys only the second object and nulls the
reference, and then a `status: tts` message from the zombie still flips
the agent to speaking - with a null call reference, but with the zombie
object alive. -/
theorem agent_active_implies_live_session_object_witness :
    (runM [MEv.connectIntent, MEv.disconnectIntent, MEv.connectIntent, MEv.provisionOk,
        MEv.provisionOk, MEv.disconnectIntent, MEv.appMessage 0 msgStatusTts]).agentState ≠ .idle ∧
      (runM [MEv.connectIntent, MEv.disconnectIntent, MEv.connectIntent, MEv.provisionOk,
        MEv.provisionOk, MEv.disconnectIntent, MEv.appMessage 0 msgStatusTts]).callRef = none ∧
      anyLive (runM [MEv.connectIntent, MEv.disconnectIntent, MEv.connectIntent, MEv.provisionOk,
        MEv.provisionOk, MEv.disconnectIntent, MEv.appMessage 0 msgStatusTts]).callObjects = true :=
  ⟨by decide, by decide, agent_active_implies_live_session_object _ (by decide)⟩

/-- A stopped and detached sink is dead in both respects. -/
theorem killSink_dead (k : AudioSink) :
    (killSink k).srcObject = none ∧ (killSink k).paused = true :=
  ⟨rfl, rfl⟩

/-- The decoded effect of an application message never touches the sink
graveyard. -/
theorem applyDecEvent_graveyard (s : AppState) (o : Option DecEvent) :
    (applyDecEvent s o).graveyard = s.graveyard := by
  rcases o with _ | e
  · rfl
  · cases e <;> rfl

/-- A track-started event never touches the call reference. -/
theorem step_trackStarted_callRef (s : AppState) (e : TrackEvent) :
    (step s (.trackStarted e)).callRef = s.callRef := by
  simp only [step]
  split <;> rfl

/-- Every turn keeps the graveyard dead: sinks only ever enter it through
`killSink` (the pause plus detach of the handlers). -/
theorem step_preserves_graveDead (s : AppState) (e : Ev) (h : GraveDead s) :
    GraveDead (step s e) := by
  cases e with
  | connectIntent => simp only [step]; split <;> exact h
  | provisionOk => simp only [step]; split <;> exact h
  | provisionFail => simp only [step]; split <;> exact h
  | joined => simp only [step]; split <;> exact h
  | joinFail => simp only [step]; split <;> exact h
  | leftMeeting => simp only [step]; split <;> exact h
  | transportError => simp only [step]; split <;> exact h
  | appMessage d =>
      by_cases hc : s.callRef.isSome
      · simp only [step, hc, if_true]
        intro k hk
        rw [applyDecEvent_graveyard] at hk
        exact h k hk
      · simp only [step, hc, if_false]
        exact h
  | trackStarted e =>
      simp only [step]
      split
      · intro k hk
        cases ha : s.audioRef with
        | none =>
            rw [ha] at hk
            exact h k hk
        | some k0 =>
            rw [ha] at hk
            rcases List.mem_append.mp hk with hmem | hmem
            · exact h k hmem
            · rcases List.mem_singleton.mp hmem with rfl
              exact killSink_dead k0
      · exact h
  | disconnectIntent =>
      simp only [step]
      intro k hk
      cases ha : s.audioRef with
      | none =>
          rw [ha] at hk
          exact h k hk
      | some k0 =>
          rw [ha] at hk
          rcases List.mem_append.mp hk with hmem | hmem
          · exact h k hmem
          · rcases List.mem_singleton.mp hmem with rfl
            exact killSink_dead k0
  | toggleMuteIntent =>
      simp only [step]
      cases hc : s.callRef with
      | some c => exact h
      | none => exact h
  | selectCharacter c => simp only [step]; split <;> exact h

/-- The graveyard is dead along any fold of the step function. -/
theorem foldl_preserves_graveDead (tr : List Ev) :
    ∀ s : AppState, GraveDead s → GraveDead (tr.foldl step s) := by
  induction tr with
  | nil => exact fun s h => h
  | cons e rest ih => exact fun s h => ih (step s e) (step_preserves_graveDead s e h)

/-- The graveyard is dead in every reachable state. -/
theorem graveDead_run (tr : List Ev) : GraveDead (run tr) :=
  foldl_preserves_graveDead tr initState (fun k hk => absurd hk (List.not_mem_nil k))

/-- A qualifying track event carries an audio track. -/
theorem qualifying_track (e : TrackEvent) (h : qualifying e = true) :
    ∃ t, e.track = some t := by
  rcases e with ⟨tk, pp, po⟩
  cases tk with
  | none => cases pp <;> simp [qualifying] at h
  | some t => exact ⟨t, rfl⟩

/-- In a state with a dead graveyard whose current sink is attached,
exactly one sink is alive. -/
theorem aliveSinks_eq_one (s : AppState) (hg : GraveDead s) (k : AudioSink)
    (ha : s.audioRef = some k) (hk : k.srcObject.isSome = true) :
    aliveSinks s = 1 := by
  unfold aliveSinks
  rw [ha]
  have hfil : s.graveyard.filter (fun k => k.srcObject.isSome) = [] := by
    rw [List.filter_eq_nil_iff]
    intro a hain
    simp [(hg a hain).1]
  rw [hfil]
  simp [hk]

/-- Folding any nonempty block of qualifying track-started events leaves
exactly one attached sink, bound to the last track, every replaced sink
stopped and detached. -/
theorem tracks_fold_single_sink :
    ∀ (ts : List TrackEvent) (e : TrackEvent) (s : AppState),
      s.callRef.isSome = true → GraveDead s →
      (∀ x ∈ ts ++ [e], qualifying x = true) →
      ∃ t, e.track = some t ∧
        (((ts ++ [e]).map Ev.trackStarted).foldl step s).audioRef =
          some { srcObject := some t.id, autoplay := true, paused := !e.playOk } ∧
        GraveDead (((ts ++ [e]).map Ev.trackStarted).foldl step s) ∧
        aliveSinks (((ts ++ [e]).map Ev.trackStarted).foldl step s) = 1 := by
  intro ts
  induction ts with
  | nil =>
      intro e s hc hg hq
      have hqe : qualifying e = true := hq e (by simp)
      rcases qualifying_track e hqe with ⟨t, ht⟩
      refine ⟨t, ht, ?_, ?_, ?_⟩
      · simp only [List.nil_append, List.map_cons, List.map_nil, List.foldl_cons, List.foldl_nil,
          step, hc, hqe, Bool.and_self, if_true, ht]
        rfl
      · exact step_preserves_graveDead s (.trackStarted e) hg
      · refine aliveSinks_eq_one _ (step_preserves_graveDead s (.trackStarted e) hg)
          { srcObject := some t.id, autoplay := true, paused := !e.playOk } ?_ rfl
        simp only [List.nil_append, List.map_cons, List.map_nil, List.foldl_cons, List.foldl_nil,
          step, hc, hqe, Bool.and_self, if_true, ht]
        rfl
  | cons x rest ih =>
      intro e s hc hg hq
      have hstep : ((((x :: rest) ++ [e]).map Ev.trackStarted).foldl step s) =
          (((rest ++ [e]).map Ev.trackStarted).foldl step (step s (.trackStarted x))) := by
        simp [List.foldl_cons]
      have hc2 : (step s (.trackStarted x)).callRef.isSome = true := by
        rw [step_trackStarted_callRef]; exact hc
      have hg2 : GraveDead (step s (.trackStarted x)) :=
        step_preserves_graveDead s (.trackStarted x) hg
      have hq2 : ∀ y ∈ rest ++ [e], qualifying y = true := by
        intro y hy
        exact hq y (by simp at hy ⊢; tauto)
      rcases ih e (step s (.trackStarted x)) hc2 hg2 hq2 with ⟨t, ht, h1, h2, h3⟩
      exact ⟨t, ht, by rw [hstep]; exact h1, by rw [hstep]; exact h2, by rw [hstep]; exact h3⟩

/-- Claim C7: from any reachable state with a live call object, after any
nonempty block of qualifying track-started events (audio kind, non-local
participant), exactly one audio sink is attached, it is bound to the
track of the most recent event, and every sink it replaced has been
stopped and detached. -/
theorem single_sink_bound_to_latest (tr : List Ev) (ts : List TrackEvent) (e : TrackEvent)
    (hc : (run tr).callRef.isSome = true)
    (hq : ∀ x ∈ ts ++ [e], qualifying x = true) :
    ∃ t, e.track = some t ∧
      (run (tr ++ (ts ++ [e]).map Ev.trackStarted)).audioRef =
        some { srcObject := some t.id, autoplay := true, paused := !e.playOk } ∧
      GraveDead (run (tr ++ (ts ++ [e]).map Ev.trackStarted)) ∧
      aliveSinks (run (tr ++ (ts ++ [e]).map Ev.trackStarted)) = 1 := by
  have hrw : run (tr ++ (ts ++ [e]).map Ev.trackStarted) =
      ((ts ++ [e]).map Ev.trackStarted).foldl step (run tr) := by
    unfold run
    rw [List.foldl_append]
  rw [hrw]
  exact tracks_fold_single_sink ts e (run tr) hc (graveDead_run tr) hq

/-- Witness for claim C7: one qualifying track event on a freshly
provisioned session. -/
theorem single_sink_bound_to_latest_witness :
    (run [Ev.connectIntent, Ev.provisionOk]).callRef.isSome = true ∧
      (∀ x ∈ ([] ++ [audioTrack5] : List TrackEvent), qualifying x = true) ∧
      (∃ t, audioTrack5.track = some t ∧
        (run ([Ev.connectIntent, Ev.provisionOk] ++ (([] : List TrackEvent) ++ [audioTrack5]).map Ev.trackStarted)).audioRef =
          some { srcObject := some t.id, autoplay := true, paused := !audioTrack5.playOk } ∧
        GraveDead (run ([Ev.connectIntent, Ev.provisionOk] ++ (([] : List TrackEvent) ++ [audioTrack5]).map Ev.trackStarted)) ∧
        aliveSinks (run ([Ev.connectIntent, Ev.provisionOk] ++ (([] : List TrackEvent) ++ [audioTrack5]).map Ev.trackStarted)) = 1) :=
  ⟨by decide, by decide,
    single_sink_bound_to_latest [Ev.connectIntent, Ev.provisionOk] [] audioTrack5 (by decide) (by decide)⟩

end App

